import Mathlib

/-!
Verification of the FRIDAY offline assistant core (src/friday_core.py).

The engine state, the bounded conversation buffer, the command router,
the LLM bridge and the persistence operations are embedded as executable
Lean definitions; external capabilities (clock, network, text-to-speech)
are abstracted as parameters or effect traces.
-/

set_option maxHeartbeats 1000000

namespace Friday

/-- A conversation message as stored in `conversation_history`: the Python
dict `\x7b"role": r, "content": c\x7d` built by `_handle_conversation` and
`process_text_input` in src/friday_core.py. -/
structure Message where
  role : String
  content : String
deriving DecidableEq, Repr

/-- Append on a `collections.deque` with `maxlen` (friday_core.py line 39):
the new element goes on the right and, when the deque is full, the oldest
(leftmost) entry is evicted, so the result is the last `maxlen` elements
of `xs ++ [m]`. -/
def dequeAppend (maxlen : Nat) (xs : List α) (m : α) : List α :=
  let ys := xs ++ [m]
  ys.drop (ys.length - maxlen)

/-! ## Python string primitives used by the engine -/

/-- Python `needle in hay` on lists of characters. -/
def listContainsSub (hay needle : List Char) : Bool :=
  (List.range (hay.length + 1)).any fun i => needle.isPrefixOf (hay.drop i)

/-- Python `needle in hay` substring test on strings. -/
def strContainsSub (hay needle : String) : Bool :=
  listContainsSub hay.data needle.data

/-- Fuel-driven worker for `pyRemoveAll`: removes every non-overlapping
occurrence of `pat` (assumed non-empty), scanning left to right. One unit
of fuel is spent per consumed character, so `l.length` fuel suffices. -/
def removeAllFuel (pat : List Char) : Nat → List Char → List Char
  | 0, l => l
  | _ + 1, [] => []
  | fuel + 1, c :: cs =>
      if pat.isPrefixOf (c :: cs) then
        removeAllFuel pat fuel (cs.drop (pat.length - 1))
      else
        c :: removeAllFuel pat fuel cs

/-- Python `s.replace(pat, "")`: removes every non-overlapping occurrence
of `pat`, left to right (friday_core.py line 198 uses `text.replace(pattern, "")`). -/
def pyRemoveAll (s pat : String) : String :=
  if pat.data.isEmpty then s
  else String.mk (removeAllFuel pat.data s.data.length s.data)

/-- Python `s.strip()`: drops whitespace from both ends. -/
def pyStrip (s : String) : String :=
  String.mk (((s.data.dropWhile Char.isWhitespace).reverse.dropWhile Char.isWhitespace).reverse)

/-- Python `s.lower()` (ASCII case folding, which covers all engine data). -/
def pyLower (s : String) : String :=
  String.mk (s.data.map Char.toLower)

/-! ## Engine state and effect traces -/

/-- The mutable fields of `FridayCore` that the verified operations touch. -/
structure FridayState where
  name : String
  wake_word : String
  privacy_mode : Bool
  should_stop : Bool
  max_context_length : Nat
  conversation_history : List Message
deriving Repr

/-- `FridayCore.__init__`: name "FRIDAY", lower-cased wake word, privacy
off, empty bounded history. -/
def initState (wake : String) (maxlen : Nat) : FridayState :=
  { name := "FRIDAY", wake_word := pyLower wake, privacy_mode := false,
    should_stop := false, max_context_length := maxlen, conversation_history := [] }

/-- Observable side effects of the engine: console prints, calls into the
text-to-speech engine (`engine.say` / `engine.runAndWait`), and HTTP
requests to the Ollama endpoint. -/
inductive Effect where
  | consoleOut (text : String)
  | say (text : String)
  | runAndWait
  | llmRequest (prompt : String)
deriving DecidableEq, Repr

/-- `FridayCore.speak` (lines 119-127): in privacy mode only a console
print happens; otherwise the text is printed and handed to the
text-to-speech engine. -/
def speak (s : FridayState) (text : String) : List Effect :=
  if s.privacy_mode then
    [Effect.consoleOut ("[PRIVACY MODE] " ++ s.name ++ " would say: " ++ text)]
  else
    [Effect.consoleOut (s.name ++ ": " ++ text), Effect.say text, Effect.runAndWait]

/-! ## LLM bridge -/

/-- Outcome of one `requests.post` to the inference endpoint, as seen by
`query_llm`: a raised connection-level error, an HTTP response carrying an
optional `"response"` field, or any other unexpected exception. -/
inductive LLMOutcome where
  | connectionFailure
  | httpResponse (status : Nat) (respField : Option String)
  | otherError
deriving DecidableEq, Repr

/-- External capabilities: the wall clock (`datetime.now` already formatted)
and the network behavior of the inference endpoint per prompt. -/
structure Env where
  currentTime : String
  llm : String → LLMOutcome

/-- One rendered line of the prompt context (lines 240-241). -/
def roleLine (name : String) (m : Message) : String :=
  (if m.role == "user" then "User: " else name ++ ": ") ++ m.content ++ "\n"

/-- The context string built from the whole buffer (lines 238-241). -/
def renderContext (s : FridayState) : String :=
  s.conversation_history.foldl (fun acc m => acc ++ roleLine s.name m) ""

/-- The guard at lines 244-245: is the prompt already present in the
history as a user turn (anywhere, not just at the end)? -/
def promptInHistory (s : FridayState) (prompt : String) : Bool :=
  s.conversation_history.any fun m => m.content == prompt && m.role == "user"

/-- The full prompt `query_llm` sends (lines 238-246): the rendered buffer,
plus a trailing user line when the guard says the prompt is absent. -/
def buildContext (s : FridayState) (prompt : String) : String :=
  if promptInHistory s prompt then renderContext s
  else renderContext s ++ "User: " ++ prompt ++ "\n" ++ s.name ++ ": "

def connectionFailureReply : String :=
  "I\x27m having trouble connecting to my language model. Is Ollama running?"

def badStatusReply : String :=
  "I\x27m having trouble connecting to my brain right now."

def unexpectedErrorReply : String :=
  "I encountered an unexpected error. Please try again."

def missingFieldReply : String :=
  "I\x27m sorry, I couldn\x27t process that request."

/-- `FridayCore.query_llm` (lines 234-276): builds the context, issues one
request, and converts every failure into a fixed reply string instead of
raising. -/
def query_llm (env : Env) (s : FridayState) (prompt : String) : String × List Effect :=
  let context := buildContext s prompt
  match env.llm context with
  | .connectionFailure => (connectionFailureReply, [Effect.llmRequest context])
  | .httpResponse status respField =>
      if status == 200 then (respField.getD missingFieldReply, [Effect.llmRequest context])
      else (badStatusReply, [Effect.llmRequest context])
  | .otherError => (unexpectedErrorReply, [Effect.llmRequest context])

/-! ## Command table and handlers -/

/-- The five bound methods appearing as values of `self.commands`. -/
inductive Handler where
  | tellStory
  | tellTime
  | togglePrivacy
  | stopListening
  | showHelp
deriving DecidableEq, Repr

/-- `initialize_commands` (lines 104-117): the insertion-ordered trigger
table (Python dicts preserve insertion order). -/
def commandTable : List (String × Handler) :=
  [("tell me a story", .tellStory),
   ("what time is it", .tellTime),
   ("what\x27s the time", .tellTime),
   ("current time", .tellTime),
   ("privacy shield", .togglePrivacy),
   ("privacy mode", .togglePrivacy),
   ("stop listening", .stopListening),
   ("goodbye", .stopListening),
   ("exit", .stopListening),
   ("help", .showHelp)]

/-- `tell_time` (lines 298-301): speaks the formatted current time. -/
def tell_time (env : Env) (s : FridayState) : FridayState × List Effect :=
  (s, speak s ("The current time is " ++ env.currentTime))

/-- `tell_story` (lines 303-308): speaks a filler line, queries the LLM
with a fixed story prompt, speaks the result. -/
def tell_story (env : Env) (s : FridayState) : FridayState × List Effect :=
  let pre := speak s "Let me think of a story for you..."
  let q := query_llm env s "Generate a short, engaging story (less than 100 words)"
  (s, pre ++ q.2 ++ speak s q.1)

/-- `toggle_privacy` (lines 310-316): flips the flag, then speaks the
confirmation (through the already-updated privacy gate). -/
def toggle_privacy (s : FridayState) : FridayState × List Effect :=
  let s2 := { s with privacy_mode := !s.privacy_mode }
  if s2.privacy_mode then
    (s2, speak s2 "Privacy shield activated. I\x27ll be more discreet.")
  else
    (s2, speak s2 "Privacy shield deactivated. Normal operations resumed.")

/-- `stop_listening` (lines 318-321): speaks a farewell, then sets the
cooperative stop flag. -/
def stop_listening (s : FridayState) : FridayState × List Effect :=
  ({ s with should_stop := true }, speak s "Goodbye. Going offline now.")

/-- `show_help` (lines 323-330): speaks the comma-separated trigger list. -/
def show_help (s : FridayState) : FridayState × List Effect :=
  (s, speak s ("Here are some commands you can use: "
      ++ String.intercalate ", " (commandTable.map Prod.fst)))

/-- Dispatch of `func()` for the matched table entry. -/
def runHandler (env : Env) (s : FridayState) : Handler → FridayState × List Effect
  | .tellStory => tell_story env s
  | .tellTime => tell_time env s
  | .togglePrivacy => toggle_privacy s
  | .stopListening => stop_listening s
  | .showHelp => show_help s

/-- The scan `for cmd, func in self.commands.items(): if cmd in text` —
first entry whose trigger is a substring of `text` wins. -/
def findCommand (text : String) : Option (String × Handler) :=
  commandTable.find? fun p => strContainsSub text p.1

/-- `FridayCore.process_text_input` (lines 332-352): empty input short-
circuits; otherwise the user turn is appended, the command table is
scanned against the lower-cased input, and on no match the LLM reply is
appended and returned. Returns (reply, new state, effects). -/
def process_text_input (env : Env) (s : FridayState) (text : String) :
    String × FridayState × List Effect :=
  if text == "" then ("Please enter a message.", s, [])
  else
    let h1 := dequeAppend s.max_context_length s.conversation_history ⟨"user", text⟩
    let s1 := { s with conversation_history := h1 }
    match findCommand (pyLower text) with
    | some ch =>
        let r := runHandler env s1 ch.2
        ("Command \x27" ++ ch.1 ++ "\x27 executed.", r.1, r.2)
    | none =>
        let q := query_llm env s1 text
        let h2 := dequeAppend s1.max_context_length s1.conversation_history ⟨"assistant", q.1⟩
        let s2 := { s1 with conversation_history := h2 }
        (q.1, s2, q.2)

/-- `FridayCore._handle_conversation` (lines 220-232): append user turn,
query, append assistant turn, speak the reply. -/
def handle_conversation (env : Env) (s : FridayState) (user_input : String) :
    FridayState × List Effect :=
  let h1 := dequeAppend s.max_context_length s.conversation_history ⟨"user", user_input⟩
  let s1 := { s with conversation_history := h1 }
  let q := query_llm env s1 user_input
  let h2 := dequeAppend s1.max_context_length s1.conversation_history ⟨"assistant", q.1⟩
  let s2 := { s1 with conversation_history := h2 }
  (s2, q.2 ++ speak s2 q.1)

/-! ## Wake-word detector -/

/-- The pattern list of `_process_audio` (lines 186-192), in source order. -/
def wakePatterns (w : String) : List String :=
  ["hey " ++ w, "ok " ++ w, "okay " ++ w, "hi " ++ w, w]

/-- The wake-word section of `_process_audio` (lines 194-203), applied to
the lower-cased transcript: `none` when no pattern occurs (transcript
discarded); otherwise the command remainder after `text.replace(pattern, "")`
on the first matching pattern and `.strip()`. The inner `some ""` models
the Python `for ... else` arm, unreachable when the guard holds. -/
def detectWake (w text : String) : Option String :=
  let pats := wakePatterns w
  if pats.any (fun p => strContainsSub text p) then
    match pats.find? (fun p => strContainsSub text p) with
    | some p => some (pyStrip (pyRemoveAll text p))
    | none => some ""
  else
    none

/-! ## Persistence: session save and load -/

/-- JSON values as produced by `json.load`. -/
inductive Json where
  | null
  | bool (b : Bool)
  | num (n : Int)
  | str (s : String)
  | arr (elems : List Json)
  | obj (fields : List (String × Json))

/-- Python iteration `for x in v` over a parsed JSON value: lists yield
their elements, strings yield one-character strings, dicts yield their
keys, and every other value raises `TypeError` (modelled as `none`). -/
def pyIter : Json → Option (List Json)
  | .arr xs => some xs
  | .str s => some (s.data.map fun c => Json.str (String.mk [c]))
  | .obj kvs => some (kvs.map fun kv => Json.str kv.1)
  | _ => none

/-- The session file as seen by `load_conversation`: absent, present but
unparsable (`json.load` raises), or successfully parsed. -/
inductive FileContent where
  | missing
  | malformed
  | parsed (v : Json)

/-- The JSON image of one buffered message. -/
def msgToJson (m : Message) : Json :=
  Json.obj [("role", Json.str m.role), ("content", Json.str m.content)]

/-- `FridayCore.save_conversation` (lines 354-362): the JSON value written
on the success path, `json.dump(list(self.conversation_history), f)`. -/
def save_conversation (s : FridayState) : Json :=
  Json.arr (s.conversation_history.map msgToJson)

/-- `FridayCore.load_conversation` (lines 364-378), with the buffer viewed
at the Python-value level (the deque accepts arbitrary values). Returns
the boolean result and the buffer afterwards. A missing file or a parse
failure leaves the buffer untouched; once parsing succeeds the buffer is
cleared and each iterated element is appended; the `TypeError` raised by
iterating a non-iterable value is caught by the generic handler, so the
call returns `false` with the buffer already cleared. -/
def load_conversation (maxlen : Nat) (buf : List Json) : FileContent → Bool × List Json
  | .missing => (false, buf)
  | .malformed => (false, buf)
  | .parsed v =>
    match pyIter v with
    | none => (false, [])
    | some xs => (true, xs.foldl (dequeAppend maxlen) [])

/-- The `\x7brole, content\x7d` view of a loaded Python value. -/
def jsonRoleContent : Json → Option (String × String)
  | Json.obj [("role", Json.str r), ("content", Json.str c)] => some (r, c)
  | _ => none

/-! ## Definitions modelled from the spec, for comparison with the code -/

/-- Modelled from the spec: the shape validation `load_conversation` is
documented to perform — the parsed value must be an array whose every
element is an object carrying both a "role" and a "content" key. The
code under src/ performs no such check; this definition follows the
spec wording so the two can be compared. -/
def specValidShape : Json → Bool
  | Json.arr xs => xs.all fun e =>
      match e with
      | Json.obj kvs =>
          (kvs.any fun kv => kv.1 == "role") && (kvs.any fun kv => kv.1 == "content")
      | _ => false
  | _ => false

/-- Fuel-driven worker for `specRemoveFirst`: removes only the first
occurrence of `pat` (assumed non-empty). -/
def removeFirstFuel (pat : List Char) : Nat → List Char → List Char
  | 0, l => l
  | _ + 1, [] => []
  | fuel + 1, c :: cs =>
      if pat.isPrefixOf (c :: cs) then cs.drop (pat.length - 1)
      else c :: removeFirstFuel pat fuel cs

/-- Modelled from the spec: removal of only the FIRST occurrence of the
wake pattern, as the spec describes the stripping step. The code uses
Python `str.replace`, which removes every occurrence. -/
def specRemoveFirst (s pat : String) : String :=
  if pat.data.isEmpty then s
  else String.mk (removeFirstFuel pat.data s.data.length s.data)

/-- Modelled from the spec: the wake-word detector with first-occurrence-
only removal, for comparison with `detectWake`. -/
def specDetectWake (w text : String) : Option String :=
  match (wakePatterns w).find? (fun p => strContainsSub text p) with
  | some p => some (pyStrip (specRemoveFirst text p))
  | none => none

/-- Modelled from the spec: the duplicate-turn guard as documented — the
final user line is appended unless that exact turn is the MOST RECENT
buffer entry. The code instead checks membership anywhere in the buffer. -/
def specBuildContext (s : FridayState) (prompt : String) : String :=
  if s.conversation_history.getLast? = some ⟨"user", prompt⟩ then renderContext s
  else renderContext s ++ "User: " ++ prompt ++ "\n" ++ s.name ++ ": "

/-! ## Helper lemmas -/

theorem length_dequeAppend (maxlen : Nat) (xs : List α) (m : α) :
    (dequeAppend maxlen xs m).length = min maxlen (xs.length + 1) := by
  simp [dequeAppend]
  omega

/-- Folding `dequeAppend` over a message sequence keeps exactly the last
`maxlen` elements of the whole stream. -/
theorem foldl_dequeAppend_eq_drop (maxlen : Nat) (init msgs : List α)
    (hinit : init.length ≤ maxlen) :
    msgs.foldl (dequeAppend maxlen) init
      = (init ++ msgs).drop ((init ++ msgs).length - maxlen) := by
  induction msgs generalizing init with
  | nil =>
    simp [Nat.sub_eq_zero_of_le hinit]
  | cons m ms ih =>
    rw [List.foldl_cons, ih _ (by rw [length_dequeAppend]; omega)]
    have hda : dequeAppend maxlen init m
        = (init ++ [m]).drop ((init ++ [m]).length - maxlen) := rfl
    rw [hda, ← List.drop_append_of_le_length (Nat.sub_le _ _), List.drop_drop]
    have hsplit : init ++ m :: ms = (init ++ [m]) ++ ms := by simp
    rw [hsplit]
    congr 1
    simp
    omega

/-- No built-in handler touches the conversation buffer. -/
theorem runHandler_history (env : Env) (s : FridayState) (h : Handler) :
    (runHandler env s h).1.conversation_history = s.conversation_history := by
  cases h <;>
    simp [runHandler, tell_story, tell_time, toggle_privacy, stop_listening, show_help]
  split <;> rfl

/-! ## Claim theorems -/

/-- C1: for every sequence of appends on the conversation buffer, the
buffer length never exceeds `max_context_length`, and after appending
`max_context_length + k` messages the buffer holds exactly the last
`max_context_length` messages in their original relative order (the
oldest `k` are evicted first). -/
theorem bounded_buffer_invariant (maxlen : Nat) (msgs : List Message) :
    ((msgs.foldl (dequeAppend maxlen) []).length ≤ maxlen ∧
      ∀ k, msgs.length = maxlen + k →
        msgs.foldl (dequeAppend maxlen) [] = msgs.drop k) ∧
    (∀ env s t, s.conversation_history.length ≤ s.max_context_length →
      (handle_conversation env s t).1.conversation_history.length
          ≤ s.max_context_length ∧
      (process_text_input env s t).2.1.conversation_history.length
          ≤ s.max_context_length) := by
  constructor
  · have h := foldl_dequeAppend_eq_drop maxlen [] msgs (by simp)
    simp at h
    constructor
    · rw [h, List.length_drop]
      omega
    · intro k hk
      rw [h, hk]
      congr 1
      omega
  · intro env s t hs
    constructor
    · simp [handle_conversation, length_dequeAppend]
    · by_cases he : t = ""
      · simpa [process_text_input, he] using hs
      · have hne : (t == "") = false := by simp [he]
        cases hfc : findCommand (pyLower t) with
        | some ch =>
          simp [process_text_input, hne, hfc, runHandler_history, length_dequeAppend]
        | none =>
          simp [process_text_input, hne, hfc, length_dequeAppend]

/-- Witness for C1 at a concrete input: capacity 2, three appended
messages, so the first message is evicted; and one `process_text_input`
call on a full two-message buffer stays within capacity. -/
theorem bounded_buffer_invariant_witness :
    ([⟨"user", "hi"⟩, ⟨"assistant", "hello"⟩, ⟨"user", "bye"⟩] : List Message).foldl
        (dequeAppend 2) []
      = [⟨"assistant", "hello"⟩, ⟨"user", "bye"⟩] ∧
    (process_text_input ⟨"", fun _ => LLMOutcome.httpResponse 200 (some "ok")⟩
        ⟨"FRIDAY", "friday", false, false, 2,
          [⟨"user", "hi"⟩, ⟨"assistant", "hello"⟩]⟩
        "bye").2.1.conversation_history.length ≤ 2 := by
  constructor
  · have h := (bounded_buffer_invariant 2
      [⟨"user", "hi"⟩, ⟨"assistant", "hello"⟩, ⟨"user", "bye"⟩]).1.2 1 (by decide)
    simpa using h
  · exact ((bounded_buffer_invariant 2 []).2
      ⟨"", fun _ => LLMOutcome.httpResponse 200 (some "ok")⟩
      ⟨"FRIDAY", "friday", false, false, 2,
        [⟨"user", "hi"⟩, ⟨"assistant", "hello"⟩]⟩
      "bye" (by decide)).2

/-- C2: `query_llm` never raises to its caller (it is a total function of
the modelled outcome): a connection failure yields the fixed apology
naming Ollama, a non-200 status yields the distinct fixed "brain" string,
and any other unexpected failure yields the generic apology. -/
theorem query_llm_failure_containment (env : Env) (s : FridayState) (prompt : String) :
    (env.llm (buildContext s prompt) = LLMOutcome.connectionFailure →
      (query_llm env s prompt).1 = connectionFailureReply) ∧
    (∀ status respField,
      env.llm (buildContext s prompt) = LLMOutcome.httpResponse status respField →
      status ≠ 200 → (query_llm env s prompt).1 = badStatusReply) ∧
    (env.llm (buildContext s prompt) = LLMOutcome.otherError →
      (query_llm env s prompt).1 = unexpectedErrorReply) := by
  refine ⟨fun h => ?_, fun status respField h hs => ?_, fun h => ?_⟩ <;>
    simp [query_llm, h]
  rw [if_neg hs]

/-- Witness for C2: each failure mode exercised on a concrete engine. -/
theorem query_llm_failure_containment_witness :
    (query_llm ⟨"", fun _ => LLMOutcome.connectionFailure⟩ (initState "friday" 10) "hi").1
        = connectionFailureReply ∧
    (query_llm ⟨"", fun _ => LLMOutcome.httpResponse 500 none⟩ (initState "friday" 10) "hi").1
        = badStatusReply ∧
    (query_llm ⟨"", fun _ => LLMOutcome.otherError⟩ (initState "friday" 10) "hi").1
        = unexpectedErrorReply := by
  refine ⟨?_, ?_, ?_⟩
  · exact (query_llm_failure_containment ⟨"", fun _ => LLMOutcome.connectionFailure⟩
      (initState "friday" 10) "hi").1 rfl
  · exact (query_llm_failure_containment ⟨"", fun _ => LLMOutcome.httpResponse 500 none⟩
      (initState "friday" 10) "hi").2.1 500 none rfl (by decide)
  · exact (query_llm_failure_containment ⟨"", fun _ => LLMOutcome.otherError⟩
      (initState "friday" 10) "hi").2.2 rfl

/-- C3 counterexample: `process_text_input("What time is it?")` does reach
the `tell_time` handler, but the value it RETURNS is the fixed
confirmation string, not a time-formatted string: with the clock reading
"03:15 PM" the returned text is "Command \x27what time is it\x27 executed."
and does not contain the current time. The time string is only spoken. -/
theorem time_query_return_cex :
    (process_text_input ⟨"03:15 PM", fun _ => LLMOutcome.otherError⟩
        (initState "friday" 10) "What time is it?").1
      = "Command \x27what time is it\x27 executed." ∧
    strContainsSub
      (process_text_input ⟨"03:15 PM", fun _ => LLMOutcome.otherError⟩
        (initState "friday" 10) "What time is it?").1 "03:15 PM" = false := by
  constructor
  · rfl
  · decide

/-- C3 (amended): `process_text_input "What time is it?"` matches the
built-in trigger "what time is it" and returns the fixed confirmation
string "Command \x27what time is it\x27 executed."; the time-formatted text
"The current time is ..." is emitted through `speak` (vocalized when
privacy is off), and the LLM bridge is never invoked — no request effect
occurs, regardless of the inference capability. -/
theorem time_query_no_llm (env : Env) (s : FridayState) :
    (process_text_input env s "What time is it?").1
      = "Command \x27what time is it\x27 executed." ∧
    (s.privacy_mode = false →
      Effect.say ("The current time is " ++ env.currentTime)
        ∈ (process_text_input env s "What time is it?").2.2) ∧
    (∀ p, Effect.llmRequest p ∉ (process_text_input env s "What time is it?").2.2) := by
  have hfind : findCommand (pyLower "What time is it?")
      = some ("what time is it", Handler.tellTime) := by decide
  have hne : (("What time is it?" : String) == "") = false := by decide
  refine ⟨?_, ?_, ?_⟩ <;>
    simp [process_text_input, hfind, hne, runHandler, tell_time, speak]
  · intro hp
    simp [hp]
  · intro p
    split <;> simp

/-- Witness for C3 (amended) on a concrete engine with privacy off. -/
theorem time_query_no_llm_witness :
    Effect.say ("The current time is " ++ "03:15 PM")
      ∈ (process_text_input ⟨"03:15 PM", fun _ => LLMOutcome.otherError⟩
          (initState "friday" 10) "What time is it?").2.2 ∧
    Effect.llmRequest ""
      ∉ (process_text_input ⟨"03:15 PM", fun _ => LLMOutcome.otherError⟩
          (initState "friday" 10) "What time is it?").2.2 := by
  constructor
  · exact (time_query_no_llm ⟨"03:15 PM", fun _ => LLMOutcome.otherError⟩
      (initState "friday" 10)).2.1 rfl
  · exact (time_query_no_llm ⟨"03:15 PM", fun _ => LLMOutcome.otherError⟩
      (initState "friday" 10)).2.2 ""

/-- C4 counterexample: the file parses to `\x7b\x7d` (an empty JSON object),
which fails the documented shape validation, yet `load_conversation`
returns True — not False — and the buffer, previously holding one
message, has been cleared rather than left unchanged. -/
theorem load_atomicity_cex :
    specValidShape (Json.obj []) = false ∧
    load_conversation 10 [msgToJson ⟨"user", "hi"⟩] (FileContent.parsed (Json.obj []))
      = (true, []) ∧
    [msgToJson ⟨"user", "hi"⟩] ≠ ([] : List Json) := by
  refine ⟨rfl, rfl, by simp⟩

/-- C4 (amended): only a missing file or a PARSE failure is atomic — the
buffer is left unchanged and False is returned. Once parsing succeeds the
buffer is cleared before any check: a parsed non-iterable value returns
False with the buffer already cleared, and a parsed iterable value
installs its iterated elements and returns True even if its shape is not
the documented message array. -/
theorem load_error_atomicity (maxlen : Nat) (buf : List Json) :
    load_conversation maxlen buf FileContent.missing = (false, buf) ∧
    load_conversation maxlen buf FileContent.malformed = (false, buf) ∧
    (∀ v, pyIter v = none →
      load_conversation maxlen buf (FileContent.parsed v) = (false, [])) := by
  refine ⟨rfl, rfl, fun v hv => ?_⟩
  simp [load_conversation, hv]

/-- Witness for C4 (amended): a malformed file and a parsed JSON number. -/
theorem load_error_atomicity_witness :
    load_conversation 3 [Json.null] FileContent.malformed = (false, [Json.null]) ∧
    load_conversation 3 [Json.null] (FileContent.parsed (Json.num 5)) = (false, []) := by
  exact ⟨(load_error_atomicity 3 [Json.null]).2.1,
    (load_error_atomicity 3 [Json.null]).2.2 (Json.num 5) rfl⟩

/-- C5 counterexample: the parsed value `\x7b"a": null\x7d` is not an array
of role/content objects — the documented validator rejects it — yet
`load_conversation` accepts it, returns True, and installs the dict key
"a" as the sole buffer entry. -/
theorem load_no_validation_cex :
    specValidShape (Json.obj [("a", Json.null)]) = false ∧
    load_conversation 10 [] (FileContent.parsed (Json.obj [("a", Json.null)]))
      = (true, [Json.str "a"]) := by
  exact ⟨rfl, rfl⟩

/-- C5 (amended): `load_conversation` performs no shape validation. A
parsed value succeeds exactly when Python can iterate it (array, string,
or object), and the installed buffer is whatever that iteration yields —
array elements, one-character strings, or object keys — bounded by the
deque capacity; missing and malformed files fail. -/
theorem load_success_no_validation (maxlen : Nat) (buf : List Json) (v : Json) :
    ((load_conversation maxlen buf (FileContent.parsed v)).1 = true
      ↔ (pyIter v).isSome) ∧
    (∀ xs, pyIter v = some xs →
      load_conversation maxlen buf (FileContent.parsed v)
        = (true, xs.foldl (dequeAppend maxlen) [])) ∧
    (load_conversation maxlen buf FileContent.missing).1 = false ∧
    (load_conversation maxlen buf FileContent.malformed).1 = false := by
  refine ⟨?_, fun xs hxs => ?_, rfl, rfl⟩
  · cases hv : pyIter v <;> simp [load_conversation, hv]
  · simp [load_conversation, hxs]

/-- Witness for C5 (amended): a JSON string is happily "loaded" as its
one-character pieces. -/
theorem load_success_no_validation_witness :
    load_conversation 10 [] (FileContent.parsed (Json.str "ab"))
      = (true, [Json.str "a", Json.str "b"]) := by
  have h := (load_success_no_validation 10 [] (Json.str "ab")).2.1
    [Json.str "a", Json.str "b"] rfl
  simpa using h

/-- C6 counterexample: when the first matching pattern occurs twice in the
transcript, the code (`text.replace(pattern, "")`) removes BOTH
occurrences, while the claim says only the first occurrence is removed:
on transcript "hey friday hey friday" the code yields remainder "" where
first-occurrence removal would yield "hey friday". -/
theorem wake_strip_all_occurrences_cex :
    detectWake "friday" "hey friday hey friday" = some "" ∧
    specDetectWake "friday" "hey friday hey friday" = some "hey friday" ∧
    detectWake "friday" "hey friday hey friday"
      ≠ specDetectWake "friday" "hey friday hey friday" := by decide

/-- C6 (amended): the detector tests the patterns "hey "+w, "ok "+w,
"okay "+w, "hi "+w, w in that fixed order; on the first pattern found as
a substring it removes EVERY (non-overlapping, left-to-right) occurrence
of that substring and trims whitespace to produce the remainder; if no
pattern matches, the transcript is discarded. In particular
"hey friday tell me a story" yields "tell me a story" and "friday" alone
yields "". -/
theorem wake_word_detector (w text : String) :
    (detectWake w text = none ↔
      ∀ p ∈ wakePatterns w, strContainsSub text p = false) ∧
    (∀ p, (wakePatterns w).find? (fun q => strContainsSub text q) = some p →
      detectWake w text = some (pyStrip (pyRemoveAll text p))) ∧
    detectWake "friday" "hey friday tell me a story" = some "tell me a story" ∧
    detectWake "friday" "friday" = some "" := by
  refine ⟨?_, fun p hfind => ?_, by decide, by decide⟩
  · cases hany : (wakePatterns w).any (fun p => strContainsSub text p) with
    | false =>
      simp [detectWake, hany]
      intro p hp
      simpa using List.any_eq_false.mp hany p hp
    | true =>
      obtain ⟨p, hmem, hp⟩ := List.any_eq_true.mp hany
      cases hfind : (wakePatterns w).find? (fun q => strContainsSub text q) with
      | none =>
        have hnone := List.find?_eq_none.mp hfind p hmem
        simp [hp] at hnone
      | some q =>
        simp [detectWake, hany, hfind]
        exact ⟨p, hmem, hp⟩
  · have hp := List.find?_some hfind
    have hmem := List.mem_of_find?_eq_some hfind
    have hany : (wakePatterns w).any (fun q => strContainsSub text q) = true :=
      List.any_eq_true.mpr ⟨p, hmem, hp⟩
    simp [detectWake, hany, hfind]

/-- Witness for C6 (amended): the "okay" pattern fires first on a concrete
transcript and its removal plus trim gives the remainder. -/
theorem wake_word_detector_witness :
    detectWake "friday" "okay friday what time is it"
      = some (pyStrip (pyRemoveAll "okay friday what time is it" "okay friday")) := by
  exact (wake_word_detector "friday" "okay friday what time is it").2.1
    "okay friday" (by decide)

/-- C7: with privacy enabled, `speak` never reaches the TTS engine (no
`say`, no `runAndWait`); with privacy disabled it forwards the text to
the engine; and the reply returned by `process_text_input` is identical
whether privacy is on or off. -/
theorem privacy_gate (env : Env) (s : FridayState) (text : String) :
    (s.privacy_mode = true →
      (∀ t, Effect.say t ∉ speak s text) ∧ Effect.runAndWait ∉ speak s text) ∧
    (s.privacy_mode = false →
      speak s text = [Effect.consoleOut (s.name ++ ": " ++ text), Effect.say text,
        Effect.runAndWait]) ∧
    (process_text_input env { s with privacy_mode := true } text).1
      = (process_text_input env { s with privacy_mode := false } text).1 := by
  refine ⟨fun hp => ?_, fun hp => ?_, ?_⟩
  · simp [speak, hp]
  · simp [speak, hp]
  · by_cases he : text = ""
    · simp [process_text_input, he]
    · have hne : (text == "") = false := by simp [he]
      cases hfc : findCommand (pyLower text) with
      | some ch => simp [process_text_input, hne, hfc]
      | none =>
        simp [process_text_input, hne, hfc, query_llm, buildContext, renderContext,
          promptInHistory]

/-- Witness for C7 on a concrete engine: privacy on suppresses the TTS
calls, privacy off emits them. -/
theorem privacy_gate_witness :
    Effect.say "hello"
      ∉ speak ⟨"FRIDAY", "friday", true, false, 10, []⟩ "hello" ∧
    Effect.runAndWait ∉ speak ⟨"FRIDAY", "friday", true, false, 10, []⟩ "hello" ∧
    speak ⟨"FRIDAY", "friday", false, false, 10, []⟩ "hello"
      = [Effect.consoleOut "FRIDAY: hello", Effect.say "hello", Effect.runAndWait] := by
  refine ⟨?_, ?_, ?_⟩
  · exact ((privacy_gate ⟨"", fun _ => LLMOutcome.otherError⟩
      ⟨"FRIDAY", "friday", true, false, 10, []⟩ "hello").1 rfl).1 "hello"
  · exact ((privacy_gate ⟨"", fun _ => LLMOutcome.otherError⟩
      ⟨"FRIDAY", "friday", true, false, 10, []⟩ "hello").1 rfl).2
  · exact (privacy_gate ⟨"", fun _ => LLMOutcome.otherError⟩
      ⟨"FRIDAY", "friday", false, false, 10, []⟩ "hello").2.1 rfl

/-- C8 counterexample: the code's duplicate-turn guard checks membership
ANYWHERE in the buffer, not only the most recent entry. With buffer
[user "hi", assistant "yo"] and new prompt "hi", the last entry is not
the user turn "hi", so the claim requires the final line to be appended —
but the code appends nothing, diverging from the documented guard. -/
theorem duplicate_turn_guard_cex :
    buildContext ⟨"FRIDAY", "friday", false, false, 10,
        [⟨"user", "hi"⟩, ⟨"assistant", "yo"⟩]⟩ "hi"
      = renderContext ⟨"FRIDAY", "friday", false, false, 10,
        [⟨"user", "hi"⟩, ⟨"assistant", "yo"⟩]⟩ ∧
    ([⟨"user", "hi"⟩, ⟨"assistant", "yo"⟩] : List Message).getLast?
      ≠ some ⟨"user", "hi"⟩ ∧
    buildContext ⟨"FRIDAY", "friday", false, false, 10,
        [⟨"user", "hi"⟩, ⟨"assistant", "yo"⟩]⟩ "hi"
      ≠ specBuildContext ⟨"FRIDAY", "friday", false, false, 10,
        [⟨"user", "hi"⟩, ⟨"assistant", "yo"⟩]⟩ "hi" := by decide

/-- C8 (amended): `query_llm` renders every buffered message in order and
appends the final user line if and only if no user turn with exactly that
content occurs ANYWHERE in the buffer; in particular an utterance already
appended as the most recent entry is not duplicated in the rendered
prompt. -/
theorem duplicate_turn_guard (s : FridayState) (prompt : String) :
    (promptInHistory s prompt = true → buildContext s prompt = renderContext s) ∧
    (promptInHistory s prompt = false →
      buildContext s prompt
        = renderContext s ++ "User: " ++ prompt ++ "\n" ++ s.name ++ ": ") ∧
    (s.conversation_history.getLast? = some ⟨"user", prompt⟩ →
      buildContext s prompt = renderContext s) := by
  refine ⟨fun h => ?_, fun h => ?_, fun h => ?_⟩
  · simp [buildContext, h]
  · simp [buildContext, h]
  · have hmem : (⟨"user", prompt⟩ : Message) ∈ s.conversation_history := by
      obtain ⟨hnil, heq⟩ := List.mem_getLast?_eq_getLast (Option.mem_def.mpr h)
      rw [heq]
      exact List.getLast_mem hnil
    have hp : promptInHistory s prompt = true :=
      List.any_eq_true.mpr ⟨⟨"user", prompt⟩, hmem, by simp⟩
    simp [buildContext, hp]

/-- Witness for C8 (amended): a buffer ending in the user turn "hey" does
not get a duplicate final line for prompt "hey". -/
theorem duplicate_turn_guard_witness :
    buildContext ⟨"FRIDAY", "friday", false, false, 10, [⟨"user", "hey"⟩]⟩ "hey"
      = renderContext ⟨"FRIDAY", "friday", false, false, 10, [⟨"user", "hey"⟩]⟩ := by
  exact (duplicate_turn_guard
    ⟨"FRIDAY", "friday", false, false, 10, [⟨"user", "hey"⟩]⟩ "hey").2.2 rfl

/-- C9: saving a buffer of at most `max_context_length` messages and
loading the file back succeeds and reinstalls the same ordered sequence
of messages, whose role/content view is exactly the original pairs. -/
theorem save_load_round_trip (maxlen : Nat) (buf : List Json) (s : FridayState)
    (h : s.conversation_history.length ≤ maxlen) :
    load_conversation maxlen buf (FileContent.parsed (save_conversation s))
      = (true, s.conversation_history.map msgToJson) ∧
    (s.conversation_history.map msgToJson).map jsonRoleContent
      = s.conversation_history.map (fun m => some (m.role, m.content)) := by
  constructor
  · simp only [save_conversation, load_conversation, pyIter]
    rw [foldl_dequeAppend_eq_drop maxlen [] _ (by simp)]
    simp only [List.nil_append, List.length_map]
    rw [Nat.sub_eq_zero_of_le h, List.drop_zero]
  · rw [List.map_map]
    congr 1

/-- Witness for C9: a two-message buffer survives the round trip. -/
theorem save_load_round_trip_witness :
    load_conversation 10 [Json.null]
        (FileContent.parsed (save_conversation ⟨"FRIDAY", "friday", false, false, 10,
          [⟨"user", "hi"⟩, ⟨"assistant", "hello"⟩]⟩))
      = (true, [msgToJson ⟨"user", "hi"⟩, msgToJson ⟨"assistant", "hello"⟩]) := by
  have h := (save_load_round_trip 10 [Json.null]
    ⟨"FRIDAY", "friday", false, false, 10,
      [⟨"user", "hi"⟩, ⟨"assistant", "hello"⟩]⟩ (by decide)).1
  simpa using h

/-- C10: on a non-empty input that matches a built-in trigger,
`process_text_input` leaves the buffer equal to the old buffer with
exactly the one user turn appended (bounded by capacity) — no handler
touches the buffer and no assistant turn is added on the command path;
below capacity the length grows by exactly one. -/
theorem command_path_frame (env : Env) (s : FridayState) (text : String)
    (hne : text ≠ "") (ch : String × Handler)
    (hmatch : findCommand (pyLower text) = some ch) :
    (process_text_input env s text).2.1.conversation_history
      = dequeAppend s.max_context_length s.conversation_history ⟨"user", text⟩ ∧
    (s.conversation_history.length < s.max_context_length →
      (process_text_input env s text).2.1.conversation_history.length
        = s.conversation_history.length + 1) := by
  have hne2 : (text == "") = false := by simp [hne]
  constructor
  · simp [process_text_input, hne2, hmatch, runHandler_history]
  · intro hlt
    simp [process_text_input, hne2, hmatch, runHandler_history, length_dequeAppend]
    omega

/-- Witness for C10: the "goodbye" trigger on a fresh engine appends just
the one user turn. -/
theorem command_path_frame_witness :
    (process_text_input ⟨"", fun _ => LLMOutcome.otherError⟩ (initState "friday" 10)
        "goodbye").2.1.conversation_history
      = dequeAppend 10 [] ⟨"user", "goodbye"⟩ ∧
    (process_text_input ⟨"", fun _ => LLMOutcome.otherError⟩ (initState "friday" 10)
        "goodbye").2.1.conversation_history.length = 1 := by
  have h := command_path_frame ⟨"", fun _ => LLMOutcome.otherError⟩ (initState "friday" 10)
    "goodbye" (by decide) ("goodbye", Handler.stopListening) (by decide)
  refine ⟨h.1, ?_⟩
  have h2 := h.2 (by decide)
  simpa using h2

end Friday
